import Mathlib

/-!
Verification of the maldreth-viz lifecycle dashboard (src/main.py,
src/createdb_from_excel.py): a shallow embedding of its data reshaping
logic — the lifecycle graph projection, the focused-stage projection,
the tools filter/CRUD callbacks, and the database seeding data — with
theorems about the properties the code is meant to satisfy.
-/

namespace Maldreth

/-- A row of the LifeCycle table as fetched at module load:
`SELECT stage, stagedesc FROM LifeCycle` (src/main.py line 69). -/
structure StageRecord where
  stage : String
  stagedesc : String
deriving DecidableEq, Repr

/-- A row of the CycleConnects table as fetched at module load:
`SELECT id, start, end, type FROM CycleConnects` (src/main.py line 73).
In main.py the values come back from SQLite; `start` and `end` are
compared against the stage-name keys of `lifecycle_stages`, so they are
modelled as strings here. `end` is a Lean keyword, hence `end_`. -/
structure ConnRecord where
  id : Int
  start : String
  end_ : String
  type : String
deriving DecidableEq, Repr

/-- A row of the SubStage table as fetched at module load:
`SELECT substagename AS substage, stage FROM SubStage` (src/main.py line 76). -/
structure SubstageRecord where
  substage : String
  stage : String
deriving DecidableEq, Repr

/-- A row of the Tools table:
`SELECT ToolName, ToolDesc, ToolLink, ToolProvider, stage FROM Tools`
(src/main.py line 83). -/
structure Tool where
  ToolName : String
  ToolDesc : String
  ToolLink : String
  ToolProvider : String
  stage : String
deriving DecidableEq, Repr

/-- A cytoscape node element, as built by `create_full_lifecycle_elements`
and `create_focused_stage_elements`: `{'data': {'id': …, 'label': …}, …,
'tooltip': {'content': …}}`.  The fixed style dictionary is constant in the
source and carries no data, so it is not modelled.  `highlighted` models the
optional "highlighted" rendering attribute of the spec's step 4; the nodes
built in src/main.py never set it. -/
structure Node where
  id : String
  label : String
  tooltip : String
  highlighted : Bool := false
deriving DecidableEq, Repr

/-- A cytoscape edge element of the full-lifecycle graph:
`{'data': {'source': …, 'target': …, 'label': row['type']}, …}`
(src/main.py lines 119-122). -/
structure Edge where
  source : String
  target : String
  label : String
deriving DecidableEq, Repr

/-- A cytoscape edge of the focused-stage graph, which carries no label:
`{'data': {'source': substages[i], 'target': substages[i+1]}, …}`
(src/main.py lines 145-155). -/
structure FEdge where
  source : String
  target : String
deriving DecidableEq, Repr

/-- Insertion into a Python dict: an existing key keeps its position and its
value is replaced; a new key is appended.  This is the semantics of building
`lifecycle_stages` via `set_index('stage')['stagedesc'].to_dict()`
(src/main.py line 70), where a repeated stage identifier silently
overwrites the earlier description. -/
def dictInsert (d : List (String × String)) (k v : String) : List (String × String) :=
  if d.any (fun p => p.1 == k) then
    d.map (fun p => if p.1 == k then (k, v) else p)
  else
    d ++ [(k, v)]

/-- The dict `lifecycle_stages` built at module load:
`lifecycle_stages_df.set_index('stage')['stagedesc'].to_dict()`
(src/main.py line 70), as a fold of the stage rows into a Python dict
keyed by stage. -/
def lifecycle_stages (records : List StageRecord) : List (String × String) :=
  records.foldl (fun d r => dictInsert d r.stage r.stagedesc) []

/-- Membership test `x in lifecycle_stages` on a Python dict tests the keys. -/
def dictHasKey (d : List (String × String)) (k : String) : Bool :=
  d.any (fun p => p.1 == k)

/-- Key lookup on a Python dict modelled as an association list. -/
def dictGet (d : List (String × String)) (k : String) : Option String :=
  (d.find? (fun p => p.1 == k)).map (fun p => p.2)

/-- The node list of `create_full_lifecycle_elements` (src/main.py
lines 89-103): one node per entry of the `lifecycle_stages` dict, with the
stage as id and label and its description as tooltip. -/
def lifecycle_nodes (d : List (String × String)) : List Node :=
  d.map (fun p => { id := p.1, label := p.1, tooltip := p.2 })

/-- The edge loop of `create_full_lifecycle_elements` (src/main.py
lines 106-122): for each connection row, if either endpoint is not a key of
`lifecycle_stages`, log a warning and `continue`; otherwise append the edge
`{source: start, target: end, label: type}`.  Returns the edges together
with the warning messages, in iteration order. -/
def lifecycle_edges (d : List (String × String)) :
    List ConnRecord → List Edge × List String
  | [] => ([], [])
  | c :: rest =>
    let (es, ws) := lifecycle_edges d rest
    if dictHasKey d c.start && dictHasKey d c.end_ then
      ({ source := c.start, target := c.end_, label := c.type } :: es, ws)
    else
      (es, ("Skipping edge with non-existent source or target: "
              ++ c.start ++ " -> " ++ c.end_) :: ws)

/-- Function `create_full_lifecycle_elements` (src/main.py lines 86-124):
build the stage nodes and the valid connection edges; the Python function
returns the heterogeneous list `nodes + edges` and logs the warnings,
modelled here as a triple. -/
def create_full_lifecycle_elements (stages : List StageRecord)
    (connects : List ConnRecord) : List Node × List Edge × List String :=
  let d := lifecycle_stages stages
  let nodes := lifecycle_nodes d
  let (edges, warnings) := lifecycle_edges d connects
  (nodes, edges, warnings)

/-- The valid-endpoint predicate of the spec: both the start and the end
identifier of the connection are keys of the stage dict. -/
def validEndpoints (d : List (String × String)) (c : ConnRecord) : Bool :=
  dictHasKey d c.start && dictHasKey d c.end_

/-- The edge a connection record maps to when its endpoints are valid. -/
def edgeOf (c : ConnRecord) : Edge :=
  { source := c.start, target := c.end_, label := c.type }

/-- A CycleConnects row as seeded by `initialize_database_from_excel`
(src/createdb_from_excel.py lines 108-124): `(id, start, end, type)` with
numeric stage positions. -/
structure SeedConn where
  id : Nat
  start : Nat
  end_ : Nat
  type : String
deriving DecidableEq, Repr

/-- The literal `cycle_connects_data` list seeded into CycleConnects
(src/createdb_from_excel.py lines 108-124). -/
def cycle_connects_data : List SeedConn :=
  [⟨1, 1, 2, "normal"⟩, ⟨2, 2, 3, "normal"⟩, ⟨3, 3, 4, "normal"⟩,
   ⟨4, 4, 5, "normal"⟩, ⟨5, 5, 6, "normal"⟩, ⟨6, 6, 7, "normal"⟩,
   ⟨7, 7, 8, "normal"⟩, ⟨8, 8, 9, "normal"⟩, ⟨9, 9, 10, "normal"⟩,
   ⟨10, 10, 11, "normal"⟩, ⟨11, 11, 12, "normal"⟩, ⟨12, 12, 1, "normal"⟩,
   ⟨13, 3, 4, "alternative"⟩, ⟨14, 4, 5, "alternative"⟩,
   ⟨15, 5, 6, "alternative"⟩]

/-- The substage-name list of the focused view:
`substages_df[substages_df['stage'] == stage]['substage'].tolist()`
(src/main.py line 129). -/
def focused_substages (substages_df : List SubstageRecord) (stage : String) :
    List String :=
  (substages_df.filter (fun r => r.stage == stage)).map (fun r => r.substage)

/-- Function `create_focused_stage_elements` (src/main.py lines 127-156):
one node per substage of the stage, and one edge from `substages[i]` to
`substages[i+1]` for each `i in range(len(substages) - 1)`; the Python
function returns the heterogeneous list `nodes + edges`, modelled as a
pair. -/
def create_focused_stage_elements (substages_df : List SubstageRecord)
    (stage : String) : List Node × List FEdge :=
  let substages := focused_substages substages_df stage
  let nodes := substages.map (fun s =>
    { id := s, label := s, tooltip := "Substage: " ++ s : Node })
  let edges := (List.range (substages.length - 1)).map (fun i =>
    { source := substages.getD i "", target := substages.getD (i + 1) "" : FEdge })
  (nodes, edges)

/-- Function `get_tools_for_stage` (src/main.py lines 159-161):
`tools_df[tools_df['stage'] == stage]`. -/
def get_tools_for_stage (tools_df : List Tool) (stage : String) : List Tool :=
  tools_df.filter (fun t => t.stage == stage)

/-- Python truthiness of a Dash dropdown value: `None` and the empty string
are falsy. -/
def truthyOptStr : Option String → Bool
  | none => false
  | some s => !(s == "")

/-- Callback `update_focused_stage_graph` (src/main.py lines 335-343):
return the focused elements when the selected stage is truthy, otherwise
`raise PreventUpdate`, modelled as `Except Unit`. -/
def update_focused_stage_graph (substages_df : List SubstageRecord)
    (selected_stage : Option String) : Except Unit (List Node × List FEdge) :=
  if truthyOptStr selected_stage then
    .ok (create_focused_stage_elements substages_df (selected_stage.getD ""))
  else
    .error ()

/-- The tapped-node payload of a cytoscape graph (`tapNodeData`): a dict with
at least an `id`; `None` (no tap yet) is the falsy case. -/
structure NodeData where
  id : String
deriving DecidableEq, Repr

/-- Callback `update_stage_dropdown` (src/main.py lines 366-374): return
the tapped node's id when a node was tapped, otherwise `raise
PreventUpdate`. -/
def update_stage_dropdown (node_data : Option NodeData) : Except Unit String :=
  match node_data with
  | some d => .ok d.id
  | none => .error ()

/-- The three values of the tool-sort dropdown (src/main.py lines
274-281). -/
inductive SortBy where
  | byName
  | byDesc
  | byProvider
deriving DecidableEq, Repr

/-- The column `sort_values` sorts by for each dropdown value. -/
def sortKey : SortBy → Tool → String
  | .byName, t => t.ToolName
  | .byDesc, t => t.ToolDesc
  | .byProvider, t => t.ToolProvider

/-- Sorting `tools_df_stage.sort_values(by=[sort_by])` (src/main.py
line 408). -/
def sortTools (sort_by : SortBy) (ts : List Tool) : List Tool :=
  ts.mergeSort (fun a b => decide (sortKey sort_by a ≤ sortKey sort_by b))

/-- Callback `update_tools_table` (src/main.py lines 389-410): when the
save button was clicked with all form fields non-empty, append the new tool
to the transient table `data` (the database INSERT is commented out in the
source); then, when a stage is selected, return the stored `tools_df`
filtered to that stage and sorted — otherwise `raise PreventUpdate`.
Returns the transient data after the append together with the callback
output. -/
def update_tools_table (tools_df : List Tool) (selected_stage : Option String)
    (sort_by : SortBy) (n_clicks : Nat)
    (name desc link provider stage : String) (data : List Tool) :
    List Tool × Except Unit (List Tool) :=
  let data :=
    if n_clicks != 0 && !(name == "") && !(desc == "") && !(link == "")
        && !(provider == "") && !(stage == "") then
      data ++ [{ ToolName := name, ToolDesc := desc,
                 ToolLink := if !(link == "") then
                     "[" ++ link ++ "](" ++ link ++ ")" else "",
                 ToolProvider := provider, stage := stage }]
    else data
  if truthyOptStr selected_stage then
    (data, .ok (sortTools sort_by
      (get_tools_for_stage tools_df (selected_stage.getD ""))))
  else
    (data, .error ())

/-- The active-cell payload of the tools DataTable: `active_cell['row']`. -/
structure ActiveCell where
  row : Nat
deriving DecidableEq, Repr

/-- A row of the tools DataTable as a Python dict from column id to value. -/
def TableRow : Type := List (String × String)

/-- Key access `row[k]` on a table row, `none` when the key is missing
(Python's KeyError). -/
def rowGet (r : TableRow) (k : String) : Option String :=
  (r.find? (fun p => p.1 == k)).map (fun p => p.2)

/-- Callback `load_tool_data` (src/main.py lines 427-441): with no active
cell return five empty strings; with an active cell index `rows` at the
cell's row and read the five fields.  Out-of-range indexing and missing
keys — Python's IndexError/KeyError — are modelled as `none`. -/
def load_tool_data (active_cell : Option ActiveCell) (rows : List TableRow) :
    Option (String × String × String × String × String) :=
  match active_cell with
  | none => some ("", "", "", "", "")
  | some cell =>
    match rows[cell.row]? with
    | none => none
    | some row =>
      match rowGet row "ToolName", rowGet row "ToolDesc", rowGet row "ToolLink",
            rowGet row "ToolProvider", rowGet row "stage" with
      | some n, some d, some l, some p, some s => some (n, d, l, p, s)
      | _, _, _, _, _ => none

/-- The in-memory data the dashboard reads: the four module-level frames
loaded at startup (src/main.py lines 69-83).  A render pass may inspect it
but the source never reassigns any of these after load. -/
structure AppState where
  lifecycle_stages_df : List StageRecord
  cycle_connects_df : List ConnRecord
  substages_df : List SubstageRecord
  tools_df : List Tool
deriving DecidableEq, Repr

/-- Modelled from the spec: src/main.py's focused view carries no highlight
code; the repository's other dashboard variants, per the spec's step 4 —
"If a 'currently selected' stage identifier is supplied, mark the matching
node (and optionally its incident edges) with a 'highlighted' attribute" —
set a highlighted attribute on the node whose id matches the selection. -/
def markHighlighted (nodes : List Node) (selected : String) : List Node :=
  nodes.map (fun n =>
    if n.id == selected then { n with highlighted := true } else n)

/-- One render pass of the focused view on the current selection: build the
focused elements from the substage data and mark the selected node
highlighted.  Mirrors `update_focused_stage_graph` →
`create_focused_stage_elements` (src/main.py lines 335-343 and 127-156)
statement by statement: every pandas operation there builds a fresh object
and no module-level frame is ever reassigned, so the pass hands the state
back unchanged. -/
def render_focused_pass (st : AppState) (selected : String) :
    (List Node × List FEdge) × AppState :=
  let (nodes, edges) := create_focused_stage_elements st.substages_df selected
  ((markHighlighted nodes selected, edges), st)

/-- The outcome of one of the module-load SQL queries (src/main.py lines
69-83): either its rows, or a database error message. -/
inductive QueryResult (α : Type) where
  | ok : List α → QueryResult α
  | err : String → QueryResult α

/-- A pandas DataFrame as far as the module-load pipeline inspects it:
whether it carries the selected columns, and its rows.  `pd.DataFrame()` —
what `get_dataframe_from_db` returns on error — carries no columns. -/
structure DataFrameOf (α : Type) where
  hasColumns : Bool
  rows : List α

/-- Function `get_dataframe_from_db` (src/main.py lines 57-65): a
successful query yields its rows with the selected columns; on a database
error the function logs and returns the column-less empty
`pd.DataFrame()`. -/
def get_dataframe_from_db {α : Type} (q : QueryResult α) : DataFrameOf α :=
  match q with
  | .ok rows => ⟨true, rows⟩
  | .err _ => ⟨false, []⟩

/-- Module-load line 70:
`lifecycle_stages_df.set_index('stage')['stagedesc'].to_dict()`.  On a
DataFrame without a `stage` column — in particular the column-less frame the
error path of `get_dataframe_from_db` returns — pandas raises KeyError. -/
def set_index_stage_to_dict (df : DataFrameOf StageRecord) :
    Except String (List (String × String)) :=
  if df.hasColumns then .ok (lifecycle_stages df.rows)
  else .error "KeyError: stage"

/-- The module-load pipeline feeding the full-lifecycle projection
(src/main.py lines 69-73 and 86-124): fetch the stage and connection
frames, build the stage dict, then build nodes, edges and warnings. -/
def load_and_project (sq : QueryResult StageRecord) (cq : QueryResult ConnRecord) :
    Except String (List Node × List Edge × List String) :=
  match set_index_stage_to_dict (get_dataframe_from_db sq) with
  | .error e => .error e
  | .ok d =>
    let connects := (get_dataframe_from_db cq).rows
    let (edges, warnings) := lifecycle_edges d connects
    .ok (lifecycle_nodes d, edges, warnings)

lemma lifecycle_edges_eq_filter (d : List (String × String)) :
    ∀ connects : List ConnRecord,
      lifecycle_edges d connects =
        ((connects.filter (validEndpoints d)).map edgeOf,
         (connects.filter (fun c => !(validEndpoints d c))).map
           (fun c => "Skipping edge with non-existent source or target: "
                       ++ c.start ++ " -> " ++ c.end_))
  | [] => rfl
  | c :: rest => by
    have ih := lifecycle_edges_eq_filter d rest
    by_cases h : (dictHasKey d c.start && dictHasKey d c.end_) = true
    · simp [lifecycle_edges, ih, List.filter, validEndpoints, h, edgeOf]
    · simp [lifecycle_edges, ih, List.filter, validEndpoints, h, edgeOf]

/-- C1: in the full-lifecycle projection, the emitted edge list is exactly
the connection sequence filtered by the valid-endpoint predicate and mapped
to `{source, target, typeTag}` edges, and the connections failing the test
are exactly the ones recorded as warnings — none of them aborts the
projection. -/
theorem c1_edges_iff_valid_endpoints (stages : List StageRecord)
    (connects : List ConnRecord) :
    (create_full_lifecycle_elements stages connects).2.1 =
      ((connects.filter (validEndpoints (lifecycle_stages stages))).map edgeOf)
    ∧ (create_full_lifecycle_elements stages connects).2.2 =
      ((connects.filter
          (fun c => !(validEndpoints (lifecycle_stages stages) c))).map
        (fun c => "Skipping edge with non-existent source or target: "
                    ++ c.start ++ " -> " ++ c.end_)) := by
  simp [create_full_lifecycle_elements, lifecycle_edges_eq_filter]

lemma dictInsert_of_not_hasKey {d : List (String × String)} {k : String} (v : String)
    (h : d.any (fun p => p.1 == k) = false) : dictInsert d k v = d ++ [(k, v)] := by
  simp [dictInsert, h]

lemma find?_append_singleton_of_all_fail {k v : String} :
    ∀ d : List (String × String), d.any (fun p => p.1 == k) = false →
      (d ++ [(k, v)]).find? (fun p => p.1 == k) = some (k, v)
  | [], _ => by simp [List.find?]
  | p :: d, h => by
    simp only [List.any_cons, Bool.or_eq_false_iff] at h
    simp only [List.cons_append, List.find?, h.1]
    exact find?_append_singleton_of_all_fail d h.2

lemma find?_map_overwrite {k v : String} :
    ∀ d : List (String × String), d.any (fun p => p.1 == k) = true →
      (d.map (fun p => if p.1 == k then (k, v) else p)).find? (fun p => p.1 == k)
        = some (k, v)
  | [], h => by simp at h
  | p :: d, h => by
    by_cases hp : (p.1 == k) = true
    · rw [List.map_cons, if_pos hp]
      exact List.find?_cons_of_pos _ (by simp)
    · have hb : (p.1 == k) = false := by simpa using hp
      simp only [List.any_cons, hb, Bool.false_or] at h
      rw [List.map_cons, if_neg hp, List.find?_cons_of_neg _ (by simp [hb])]
      exact find?_map_overwrite d h

lemma dictGet_dictInsert_self (d : List (String × String)) (k v : String) :
    dictGet (dictInsert d k v) k = some v := by
  unfold dictGet dictInsert
  cases hany : d.any (fun p => p.1 == k) with
  | true =>
    rw [if_pos rfl, find?_map_overwrite d hany]
    rfl
  | false =>
    rw [if_neg (by simp), find?_append_singleton_of_all_fail d hany]
    rfl

lemma foldl_dictInsert_of_nodup :
    ∀ (records : List StageRecord) (acc : List (String × String)),
      (acc.map Prod.fst ++ records.map (fun r => r.stage)).Nodup →
      records.foldl (fun d r => dictInsert d r.stage r.stagedesc) acc
        = acc ++ records.map (fun r => (r.stage, r.stagedesc))
  | [], acc, _ => by simp
  | r :: rest, acc, h => by
    have hmem : r.stage ∉ acc.map Prod.fst := by
      rw [List.nodup_append] at h
      exact fun hin => h.2.2 hin (by simp)
    have hany : acc.any (fun p => p.1 == r.stage) = false := by
      rw [Bool.eq_false_iff]
      intro hc
      rw [List.any_eq_true] at hc
      obtain ⟨p, hp, hpk⟩ := hc
      exact hmem (List.mem_map.mpr ⟨p, hp, by simpa using hpk⟩)
    have hstep : dictInsert acc r.stage r.stagedesc = acc ++ [(r.stage, r.stagedesc)] :=
      dictInsert_of_not_hasKey _ hany
    have hnd : ((acc ++ [(r.stage, r.stagedesc)]).map Prod.fst
        ++ rest.map (fun s => s.stage)).Nodup := by
      simpa [List.append_assoc] using h
    calc (r :: rest).foldl (fun d s => dictInsert d s.stage s.stagedesc) acc
        = rest.foldl (fun d s => dictInsert d s.stage s.stagedesc)
            (acc ++ [(r.stage, r.stagedesc)]) := by rw [List.foldl_cons, hstep]
      _ = (acc ++ [(r.stage, r.stagedesc)]) ++ rest.map (fun s => (s.stage, s.stagedesc)) :=
            foldl_dictInsert_of_nodup rest _ hnd
      _ = acc ++ (r :: rest).map (fun s => (s.stage, s.stagedesc)) := by simp

lemma lifecycle_stages_of_nodup (records : List StageRecord)
    (h : (records.map (fun r => r.stage)).Nodup) :
    lifecycle_stages records = records.map (fun r => (r.stage, r.stagedesc)) := by
  simpa using foldl_dictInsert_of_nodup records [] (by simpa using h)

/-- C2: with pairwise-distinct stage identifiers the projection emits exactly
one node per stage record and no duplicate node ids; and in general — with or
without collisions — a later record for the same identifier silently
overwrites the earlier description in the `lifecycle_stages` dict, rather
than failing. -/
theorem c2_one_node_per_stage :
    (∀ (records : List StageRecord) (connects : List ConnRecord),
      (records.map (fun r => r.stage)).Nodup →
        (create_full_lifecycle_elements records connects).1.length = records.length
        ∧ ((create_full_lifecycle_elements records connects).1.map
            (fun n => n.id)).Nodup)
    ∧ ∀ (earlier : List StageRecord) (r : StageRecord),
        dictGet (lifecycle_stages (earlier ++ [r])) r.stage = some r.stagedesc := by
  constructor
  · intro records connects h
    have hd := lifecycle_stages_of_nodup records h
    constructor
    · simp [create_full_lifecycle_elements, lifecycle_nodes, hd]
    · have : (create_full_lifecycle_elements records connects).1.map (fun n => n.id)
          = records.map (fun r => r.stage) := by
        simp [create_full_lifecycle_elements, lifecycle_nodes, hd]
      rw [this]
      exact h
  · intro earlier r
    have : lifecycle_stages (earlier ++ [r])
        = dictInsert (lifecycle_stages earlier) r.stage r.stagedesc := by
      simp [lifecycle_stages, List.foldl_append]
    rw [this]
    exact dictGet_dictInsert_self _ _ _

/-- Witness for C2 at a concrete input: two distinct stage records give two
nodes with distinct ids, and a colliding later record overwrites. -/
theorem c2_one_node_per_stage_witness :
    ((create_full_lifecycle_elements
        [⟨"Plan", "p"⟩, ⟨"Collect", "c"⟩] []).1.length = 2
      ∧ ((create_full_lifecycle_elements
          [⟨"Plan", "p"⟩, ⟨"Collect", "c"⟩] []).1.map (fun n => n.id)).Nodup)
    ∧ dictGet (lifecycle_stages ([⟨"Plan", "p"⟩] ++ [⟨"Plan", "q"⟩])) "Plan"
        = some "q" := by
  refine ⟨?_, c2_one_node_per_stage.2 [⟨"Plan", "p"⟩] ⟨"Plan", "q"⟩⟩
  have h := c2_one_node_per_stage.1 [⟨"Plan", "p"⟩, ⟨"Collect", "c"⟩] [] (by decide)
  exact h

/-- C5: every seeded cycle connection is tagged "normal" or "alternative",
its endpoints are stages 1..12 of the fixed lifecycle, and the
"normal"-tagged connections are exactly the 12 edges stage i → stage i+1
for i = 1..11 followed by stage 12 → stage 1. -/
theorem c5_seeded_normal_cycle :
    cycle_connects_data.all
        (fun c => (c.type == "normal" || c.type == "alternative")
          && (1 ≤ c.start && c.start ≤ 12 && 1 ≤ c.end_ && c.end_ ≤ 12)) = true
    ∧ (cycle_connects_data.filter (fun c => c.type == "normal")).length = 12
    ∧ (cycle_connects_data.filter (fun c => c.type == "normal")).map
        (fun c => (c.start, c.end_))
      = ((List.range 11).map (fun i => (i + 1, i + 2))) ++ [(12, 1)] := by
  refine ⟨by decide, by decide, by decide⟩

/-- C7: the filter-tools-by-stage query returns exactly the tool records
whose stage equals the given identifier — every returned record has that
stage, every stored record with that stage is returned — and the result is
a sublist of the stored collection, i.e. in stored order. -/
theorem c7_tools_filter_exact (tools_df : List Tool) (stage : String) :
    (∀ t ∈ get_tools_for_stage tools_df stage, t.stage = stage)
    ∧ (∀ t ∈ tools_df, t.stage = stage → t ∈ get_tools_for_stage tools_df stage)
    ∧ (get_tools_for_stage tools_df stage).Sublist tools_df := by
  refine ⟨?_, ?_, List.filter_sublist tools_df⟩
  · intro t ht
    have := (List.mem_filter.mp ht).2
    simpa using this
  · intro t ht hs
    exact List.mem_filter.mpr ⟨ht, by simp [hs]⟩

/-- Witness for C7 at a concrete input: a tool stored for stage "Share" is
returned by the query for "Share". -/
theorem c7_tools_filter_exact_witness :
    (⟨"Zenodo", "d", "l", "p", "Share"⟩ : Tool) ∈
      get_tools_for_stage
        [⟨"Zenodo", "d", "l", "p", "Share"⟩, ⟨"GitHub", "d", "l", "p", "Plan"⟩]
        "Share" :=
  (c7_tools_filter_exact
      [⟨"Zenodo", "d", "l", "p", "Share"⟩, ⟨"GitHub", "d", "l", "p", "Plan"⟩]
      "Share").2.1 ⟨"Zenodo", "d", "l", "p", "Share"⟩ (by simp) rfl

/-- C8: for a stage with n substage records the focused-stage graph has
exactly n nodes and n - 1 edges (0 when n = 0, by Python's empty
`range(-1)` and by Nat subtraction here), and edge i joins the i-th
substage to the (i+1)-th — a single linear path. -/
theorem c8_focused_stage_linear_path (substages_df : List SubstageRecord)
    (stage : String) :
    (create_focused_stage_elements substages_df stage).1.length
      = (focused_substages substages_df stage).length
    ∧ (create_focused_stage_elements substages_df stage).2.length
      = (focused_substages substages_df stage).length - 1
    ∧ ∀ i, i < (focused_substages substages_df stage).length - 1 →
        (create_focused_stage_elements substages_df stage).2.getD i ⟨"", ""⟩
          = ⟨(focused_substages substages_df stage).getD i "",
             (focused_substages substages_df stage).getD (i + 1) ""⟩ := by
  refine ⟨by simp [create_focused_stage_elements],
    by simp [create_focused_stage_elements], ?_⟩
  intro i hi
  simp only [create_focused_stage_elements, List.getD]
  rw [List.get?_map, List.get?_range hi]
  rfl

/-- Witness for C8 at a concrete input: three substages of stage "S" give a
2-edge path whose first edge joins the first two substages. -/
theorem c8_focused_stage_linear_path_witness :
    (create_focused_stage_elements
        [⟨"a", "S"⟩, ⟨"b", "S"⟩, ⟨"c", "S"⟩, ⟨"x", "T"⟩] "S").2.getD 0 ⟨"", ""⟩
      = ⟨"a", "b"⟩ := by
  have h := (c8_focused_stage_linear_path
      [⟨"a", "S"⟩, ⟨"b", "S"⟩, ⟨"c", "S"⟩, ⟨"x", "T"⟩] "S").2.2 0 (by decide)
  simpa using h

/-- C9: with a `None` or empty selected value, the focused-graph callback,
the stage-dropdown callback (whose driving input is the tapped node data),
and the tools-table callback each raise PreventUpdate instead of producing
an output. -/
theorem c9_prevent_update_on_empty_selection :
    (∀ substages_df,
      update_focused_stage_graph substages_df none = .error ()
      ∧ update_focused_stage_graph substages_df (some "") = .error ())
    ∧ update_stage_dropdown none = .error ()
    ∧ ∀ tools_df sort_by n_clicks name desc link provider stage data,
        (update_tools_table tools_df none sort_by n_clicks
            name desc link provider stage data).2 = .error ()
        ∧ (update_tools_table tools_df (some "") sort_by n_clicks
            name desc link provider stage data).2 = .error () := by
  refine ⟨fun substages_df => ⟨rfl, rfl⟩, rfl, ?_⟩
  intro tools_df sort_by n_clicks name desc link provider stage data
  constructor <;> simp [update_tools_table, truthyOptStr]

/-- C4: the save handler appends the new tool only to the transient table
`data` — the database INSERT is commented out (src/main.py lines 400-404) —
and then returns the stale module-level `tools_df` filtered by stage, so a
read right after the save does not contain the created tool: starting from
an empty Tools collection, saving a complete tool for stage "Plan" leaves
the transient data holding the tool, while the callback output and
`get_tools_for_stage` are both empty. -/
theorem c4_create_not_reflected_in_read :
    (update_tools_table [] (some "Plan") .byName 1
        "NewTool" "A tool" "http://x" "P" "Plan" []).1
      = [⟨"NewTool", "A tool", "[http://x](http://x)", "P", "Plan"⟩]
    ∧ (update_tools_table [] (some "Plan") .byName 1
        "NewTool" "A tool" "http://x" "P" "Plan" []).2 = .ok []
    ∧ get_tools_for_stage [] "Plan" = [] := by
  refine ⟨rfl, ?_, rfl⟩
  simp [update_tools_table, truthyOptStr, sortTools, get_tools_for_stage]

/-- C10: `load_tool_data` returns five empty strings when no cell is
active; with an active cell whose row index is in range and whose row has
all five keys it returns that row's five fields; and the indexing is unsafe
outside that precondition — an out-of-range row index yields no value. -/
theorem c10_load_tool_data_safety :
    (∀ rows, load_tool_data none rows = some ("", "", "", "", ""))
    ∧ (∀ (cell : ActiveCell) (rows : List TableRow) (row : TableRow)
        (n d l p s : String),
        rows[cell.row]? = some row →
        rowGet row "ToolName" = some n →
        rowGet row "ToolDesc" = some d →
        rowGet row "ToolLink" = some l →
        rowGet row "ToolProvider" = some p →
        rowGet row "stage" = some s →
        load_tool_data (some cell) rows = some (n, d, l, p, s))
    ∧ ∀ (cell : ActiveCell) (rows : List TableRow),
        rows.length ≤ cell.row → load_tool_data (some cell) rows = none := by
  refine ⟨fun rows => rfl, ?_, ?_⟩
  · intro cell rows row n d l p s hrow hn hd hl hp hs
    simp only [load_tool_data, hrow, hn, hd, hl, hp, hs]
  · intro cell rows hlen
    simp only [load_tool_data, List.getElem?_eq_none hlen]

/-- Witness for C10 at a concrete input: a one-row table with all five keys
loads that row's fields. -/
theorem c10_load_tool_data_safety_witness :
    load_tool_data (some ⟨0⟩)
        [[("ToolName", "T"), ("ToolDesc", "D"), ("ToolLink", "L"),
          ("ToolProvider", "P"), ("stage", "S")]]
      = some ("T", "D", "L", "P", "S") :=
  c10_load_tool_data_safety.2.1 ⟨0⟩
    [[("ToolName", "T"), ("ToolDesc", "D"), ("ToolLink", "L"),
      ("ToolProvider", "P"), ("stage", "S")]]
    [("ToolName", "T"), ("ToolDesc", "D"), ("ToolLink", "L"),
     ("ToolProvider", "P"), ("stage", "S")]
    "T" "D" "L" "P" "S" rfl rfl rfl rfl rfl rfl

lemma markHighlighted_idem (nodes : List Node) (selected : String) :
    markHighlighted (markHighlighted nodes selected) selected
      = markHighlighted nodes selected := by
  unfold markHighlighted
  rw [List.map_map]
  apply List.map_congr_left
  intro n _
  by_cases h : (n.id == selected) = true
  · simp [Function.comp, h]
  · simp [Function.comp, h]

/-- C6: highlighting the selected stage is a pure rendering hint — the
render pass leaves the stage, connection, substage and tool data untouched,
rendering the same selection again (on the state the first pass handed
back) produces the same elements, and marking an already-marked element
list again changes nothing. -/
theorem c6_highlight_pure_rendering_hint (st : AppState) (selected : String) :
    (render_focused_pass st selected).2 = st
    ∧ (render_focused_pass (render_focused_pass st selected).2 selected).1
        = (render_focused_pass st selected).1
    ∧ markHighlighted
        (markHighlighted (create_focused_stage_elements st.substages_df selected).1
          selected) selected
      = markHighlighted (create_focused_stage_elements st.substages_df selected).1
          selected :=
  ⟨rfl, rfl, markHighlighted_idem _ _⟩

/-- C3 counterexample: a failed stage query — a malformed source — does not
yield empty node/edge lists with the error suppressed; the column-less
DataFrame returned by `get_dataframe_from_db` makes the stage-dict
construction of line 70 raise KeyError, which propagates. -/
theorem c3_counterexample_error_propagates :
    load_and_project (.err "no such table: LifeCycle") (.ok [])
      = .error "KeyError: stage" := rfl

/-- C3 amended: an empty but well-formed source — the queries succeed with
zero rows — yields an empty node list and an empty edge list with no
exception; but when the stage query itself fails, the suppression inside
`get_dataframe_from_db` hands a column-less DataFrame to line 70, whose
`set_index('stage')` raises KeyError, and that exception propagates out of
module load. -/
theorem c3_empty_source_vs_failed_query :
    (∀ cq : QueryResult ConnRecord, ∃ warnings,
        load_and_project (.ok []) cq = .ok ([], [], warnings))
    ∧ ∀ (e : String) (cq : QueryResult ConnRecord),
        load_and_project (.err e) cq = .error "KeyError: stage" := by
  constructor
  · intro cq
    refine ⟨((get_dataframe_from_db cq).rows).map
      (fun c => "Skipping edge with non-existent source or target: "
                  ++ c.start ++ " -> " ++ c.end_), ?_⟩
    simp [load_and_project, set_index_stage_to_dict, get_dataframe_from_db,
      lifecycle_stages, lifecycle_nodes, lifecycle_edges_eq_filter,
      validEndpoints, dictHasKey]
  · intro e cq
    rfl

end Maldreth
